import Mathlib

/-!
Shallow embedding of the rusty-trading-egui core: the per-symbol session
state (`Stock`), the watchlist registry, the refresh-completion handler,
the chart aggregator (time-step estimation, candle geometry and coloring),
and the order workflow (input validation, confirmation, submit).

Conventions of the embedding:
- Machine floats (`f32`/`f64`) are modelled as exact rationals (`Rat`);
  the claims under study are about the algorithms, not float rounding.
- Timestamps are milliseconds since the epoch, as `Int`
  (`DateTime<Utc>` together with `timestamp_millis`).
- `Arc<Mutex<_>>` cells are modelled by plain values with explicit state
  passing; a lock-protected whole-value replace is a functional update.
- A Rust panic (an `unwrap` on an `Err`/`None`) is modelled by `none` in
  an `Option`-returning embedding of the surrounding function.
-/

/-! ### Rust numeric text parsing (`str::parse`) -/

/-- Numeric value of a digit string, most significant digit first. -/
def digitsToNat (cs : List Char) : Nat :=
  cs.foldl (fun a c => a * 10 + (c.toNat - 48)) 0

/-- Embeds `str::parse::<u32>()` (src/src/stock.rs:218, 260): an optional
leading `+` sign, then one or more decimal digits, value below `2^32`.
`none` is a parse error. -/
def parse_u32 (s : String) : Option Nat :=
  let cs := match s.data with
    | '+' :: rest => rest
    | cs => cs
  if cs.isEmpty then none
  else if cs.all Char.isDigit then
    let n := digitsToNat cs
    if n < 4294967296 then some n else none
  else none

def isSignChar (c : Char) : Bool := c = '+' || c = '-'

/-- Drops one leading `+`/`-` sign character, if present. -/
def stripSign (cs : List Char) : List Char :=
  match cs with
  | c :: rest => if isSignChar c then rest else c :: rest
  | [] => []

/-- Splits a character list at the first `e`/`E` exponent marker:
returns the part before it and, when a marker exists, the part after. -/
def splitAtExpMark : List Char → List Char × Option (List Char)
  | [] => ([], none)
  | c :: rest =>
    if c = 'e' || c = 'E' then ([], some rest)
    else
      let r := splitAtExpMark rest
      (c :: r.1, r.2)

/-- Mantissa of the Rust float grammar: at most one `.`, every other
character a digit, and at least one digit (`1`, `1.`, `1.5`, `.5`). -/
def mantissaOk (cs : List Char) : Bool :=
  (cs.filter (fun c => c = '.')).length ≤ 1 &&
  (cs.filter (fun c => c ≠ '.')).all Char.isDigit &&
  cs.any Char.isDigit

/-- Exponent part of the Rust float grammar: optional sign, then one or
more digits. -/
def exponentOk (cs : List Char) : Bool :=
  let ds := stripSign cs
  !ds.isEmpty && ds.all Char.isDigit

/-- Embeds the acceptance set of Rust's `FromStr` for floats
(`str::parse::<f32>()` / `::<f64>()`): an optional sign, then
`inf`/`infinity`/`nan` (case-insensitive) or a decimal number with an
optional exponent. Rust's float parsing fails only on this grammar —
out-of-range finite values saturate, they do not error — and `f32` and
`f64` share the grammar, so one predicate embeds both. -/
def rustFloatAccepts (s : String) : Bool :=
  let cs := stripSign s.data
  let low := cs.map Char.toLower
  if low = "inf".data || low = "infinity".data || low = "nan".data then true
  else
    let me := splitAtExpMark cs
    mantissaOk me.1 && (match me.2 with
      | none => true
      | some ex => exponentOk ex)

/-- Result of `str::parse::<f32>()` being `Ok` (src/src/stock.rs:218). -/
def parse_f32_ok (s : String) : Bool := rustFloatAccepts s

/-- Result of `str::parse::<f64>()` being `Ok` (src/src/stock.rs:259). -/
def parse_f64_ok (s : String) : Bool := rustFloatAccepts s

/-- Exact rational value of a finite numeric text accepted by the Rust
float grammar; `none` for `inf`/`nan` forms and for rejected text. Used
to state the spec's "positive numeric value" reading of validation. -/
def floatTextValue (s : String) : Option Rat :=
  let sn : Bool × List Char := match s.data with
    | '-' :: rest => (true, rest)
    | '+' :: rest => (false, rest)
    | cs => (false, cs)
  let me := splitAtExpMark sn.2
  if mantissaOk me.1 then
    let intPart := me.1.takeWhile (fun c => c ≠ '.')
    let fracPart := (me.1.dropWhile (fun c => c ≠ '.')).drop 1
    let base : Rat :=
      (digitsToNat intPart : Rat) + (digitsToNat fracPart : Rat) / ((10 : Rat) ^ fracPart.length)
    let withExp : Option Rat := match me.2 with
      | none => some base
      | some ex =>
        let eneg : Bool := match ex with | '-' :: _ => true | _ => false
        let ds := stripSign ex
        if !ds.isEmpty && ds.all Char.isDigit then
          some (if eneg then base / (10 : Rat) ^ digitsToNat ds
                else base * (10 : Rat) ^ digitsToNat ds)
        else none
    withExp.map (fun v => if sn.1 then -v else v)
  else none

/-! ### Data model -/

/-- Aggregation granularity tag of a series (`TimeRange` in the external
rusty-trading-model crate); only `Day` is used by this front end. -/
inductive TimeRange
  | day
  | week
  | month
deriving DecidableEq

/-- One OHLCV sample (`Point` in the external rusty-trading-model crate,
modelled per the spec's data model): timestamp (ms since epoch), open,
high, low, close prices, and volume. The `open` field is renamed
`price_open` (Lean keyword). -/
structure Point where
  timestamp : Int
  price_open : Rat
  high : Rat
  low : Rat
  close : Rat
  volume : Nat
deriving DecidableEq

/-- Ordered sample sequence with granularity and validity window
(`TimeSeries` in the external rusty-trading-model crate, modelled per the
spec's data model: the struct carries a granularity tag, start and end
timestamps, and the ordered sample array; `data()` returns the samples). -/
structure TimeSeries where
  time_range : TimeRange
  start_ts : Int
  end_ts : Int
  data : List Point
deriving DecidableEq

/-- Constructs a series (`TimeSeries::new(range, start, end, points)`). -/
def TimeSeries.new (r : TimeRange) (s e : Int) (d : List Point) : TimeSeries :=
  { time_range := r, start_ts := s, end_ts := e, data := d }

/-- Embeds the `Stock` struct of src/src/stock.rs:10-39. The
`Arc<Mutex<TimeSeries>>` cell is a plain `TimeSeries` value; the `open`
field is renamed `open_flag` (Lean keyword). -/
structure Stock where
  candle_toggle : Bool
  line_toggle : Bool
  volume_toggle : Bool
  time_series : TimeSeries
  last_update : Int
  stock_name : String
  qty : String
  price : String
  open_flag : Bool
  current_price : Rat
  bid_price : Rat
  ask_price : Rat
  daily_change : Rat
  daily_change_percent : Rat
  volume : Nat
  show_order_confirmation : Bool
  pending_order_type : String
deriving DecidableEq

/-- Embeds `Stock::default(stock_name)` (src/src/stock.rs:42-64); `now`
stands for the two `Utc::now()` calls. -/
def Stock.default (stock_name : String) (now : Int) : Stock :=
  { candle_toggle := true
    line_toggle := false
    volume_toggle := true
    time_series := TimeSeries.new TimeRange.day now now []
    last_update := now
    stock_name := stock_name
    qty := ""
    price := ""
    open_flag := true
    current_price := 0
    bid_price := 0
    ask_price := 0
    daily_change := 0
    daily_change_percent := 0
    volume := 0
    show_order_confirmation := false
    pending_order_type := "" }

/-- Embeds `Stock::set_time_series` (src/src/stock.rs:66-68): the whole
stored series is replaced under the lock. -/
def set_time_series (s : Stock) (ts : TimeSeries) : Stock :=
  { s with time_series := ts }

/-- Embeds `collect_time_series_points` (src/src/stock.rs:319-322): lock
the series and clone its sample list. -/
def collect_time_series_points (ts : TimeSeries) : List Point :=
  ts.data

/-! ### Watchlist registry -/

/-- Embeds `HashMap<String, Arc<Mutex<Stock>>>` (src/src/app.rs:28) as an
association list; `insert` shadows any earlier binding of the key, and
lookup takes the most recent binding, matching map semantics (the spec
declares insertion order not semantically significant). -/
def Registry := List (String × Stock)

/-- Embeds `HashMap::insert` on the registry. -/
def registry_insert (reg : Registry) (k : String) (v : Stock) : Registry :=
  (k, v) :: reg

/-- Lookup of a symbol's session in the registry (most recent binding). -/
def registry_get (reg : Registry) (k : String) : Option Stock :=
  match reg with
  | [] => none
  | kv :: rest => if kv.1 = k then some kv.2 else registry_get rest k

/-- Embeds the Add-to-Watchlist button handler of `show_trading_panel`
(src/src/app.rs:300-309): when the symbol input text is non-empty, insert
a fresh default session under that symbol and clear the input text;
otherwise do nothing. Returns the new registry and the new input text. -/
def add_to_watchlist (reg : Registry) (symbol_text : String) (now : Int) :
    Registry × String :=
  if symbol_text.isEmpty then (reg, symbol_text)
  else (registry_insert reg symbol_text (Stock.default symbol_text now), "")

/-! ### Refresh completion handler -/

/-- Raw bytes of a refresh response, abstracted to whether they
deserialize as a `TimeSeries` (`serde_json::from_slice`). -/
inductive Payload
  | wellFormed (ts : TimeSeries)
  | malformed
deriving DecidableEq

/-- Embeds `serde_json::from_slice::<TimeSeries>` on an abstract payload. -/
def decode_time_series : Payload → Option TimeSeries
  | Payload.wellFormed ts => some ts
  | Payload.malformed => none

/-- Embeds the fetch completion closure inside `update_market_data`
(src/src/app.rs:278-282):
`serde_json::from_slice(&result.unwrap().bytes).unwrap()` followed by
`set_time_series`. `none` models a panic of the callback: the first
`unwrap` panics on a transport error, the second on a body that does not
deserialize as a `TimeSeries`. -/
def refresh_on_completion (result : Except String Payload) (s : Stock) :
    Option Stock :=
  match result with
  | Except.error _ => none
  | Except.ok payload =>
    match decode_time_series payload with
    | none => none
    | some ts => some (set_time_series s ts)

/-! ### Order workflow -/

/-- Embeds `validate_trade_inputs` (src/src/stock.rs:217-219):
`qty.parse::<u32>().is_ok() && price.parse::<f32>().is_ok()`. -/
def validate_trade_inputs (qty price : String) : Bool :=
  (parse_u32 qty).isSome && parse_f32_ok price

/-- Embeds a BUY/SELL button click of `create_new_stock_window`
(src/src/stock.rs:151-168): when `validate_trade_inputs` passes, record
the pending side and arm the confirmation dialog
(`show_order_confirmation := true`, the PendingConfirmation state);
otherwise leave the session untouched. -/
def begin_order (s : Stock) (side : String) : Stock :=
  if validate_trade_inputs s.qty s.price then
    { s with pending_order_type := side, show_order_confirmation := true }
  else s

inductive TxnSide
  | buy
  | sell
deriving DecidableEq

/-- Order submission body (`Transaction` of the external
rusty-trading-model crate, modelled per the spec's order-submit contract:
symbol, side, price, quantity). The price is the parsed double, kept as
its exact rational value when finite (`none` for `inf`/`nan` text). -/
structure Transaction where
  side : TxnSide
  stock : String
  price_val : Option Rat
  quantity : Nat
deriving DecidableEq

/-- Embeds `execute_trade` (src/src/stock.rs:256-281):
`price.parse::<f64>().unwrap()` and `qty.parse::<u32>().unwrap()` (a
`none` result models the panic when either parse fails), then a
fire-and-forget POST of the transaction, then `qty.clear()` and
`price.clear()`. Returns the updated session and the submitted
transaction. -/
def execute_trade (s : Stock) : Option (Stock × Transaction) :=
  if parse_f64_ok s.price then
    match parse_u32 s.qty with
    | none => none
    | some q =>
      let t : Transaction :=
        if s.pending_order_type = "BUY" then
          { side := TxnSide.buy, stock := s.stock_name
            price_val := floatTextValue s.price, quantity := q }
        else
          { side := TxnSide.sell, stock := s.stock_name
            price_val := floatTextValue s.price, quantity := q }
      some ({ s with qty := "", price := "" }, t)
  else none

/-- Embeds the Confirm branch of `show_order_confirmation_dialog`
(src/src/stock.rs:239-245): `execute_trade(stock)` followed by
`show_order_confirmation = false`. -/
def confirm_order (s : Stock) : Option (Stock × Transaction) :=
  (execute_trade s).map (fun p => ({ p.1 with show_order_confirmation := false }, p.2))

/-- Embeds the completion closure of the order submit fetch
(src/src/stock.rs:271-276): both the success and the failure arm only
log; neither touches the session, so the handler is the identity on the
session state whatever the outcome. -/
def trade_completion (outcome : Except String String) (s : Stock) : Stock :=
  match outcome with
  | Except.ok _ => s
  | Except.error _ => s

/-! ### Chart aggregator -/

/-- Fallback time step (`DEFAULT_STEP_MS`, src/src/stock.rs:329). -/
def DEFAULT_STEP_MS : Rat := 60000

/-- Absolute consecutive timestamp differences over `windows(2)`
(src/src/stock.rs:338-343): for each adjacent pair, the magnitude of the
signed millisecond duration from the first to the second sample. -/
def window_abs_diffs (points : List Point) : List Rat :=
  (points.zip points.tail).map
    (fun w => (((w.2.timestamp - w.1.timestamp).natAbs : Nat) : Rat))

/-- Embeds `estimate_time_step` (src/src/stock.rs:328-356): default for
fewer than two samples; otherwise accumulate the strictly positive
absolute deltas and their count, and return their mean clamped below at
1, or the default when every delta is zero. -/
def estimate_time_step (points : List Point) : Rat :=
  if points.length < 2 then DEFAULT_STEP_MS
  else
    let acc := (window_abs_diffs points).foldl
      (fun acc d => if 0 < d then (acc.1 + d, acc.2 + 1) else acc)
      ((0 : Rat), (0 : Nat))
    if 0 < acc.2 then max (acc.1 / (acc.2 : Rat)) 1 else DEFAULT_STEP_MS

/-- Candle color: `Color32::LIGHT_GREEN` is the initial (default) color
and the up color, `Color32::LIGHT_RED` the down color
(src/src/stock.rs:437-443). -/
inductive CandleColor
  | lightGreen
  | lightRed
deriving DecidableEq

/-- One candle primitive (`BoxElem` with its `BoxSpread`, as built at
src/src/stock.rs:436-453): position, the five spread values in
construction order `(low, open, close, close, high)`, widths, color. -/
structure BoxElem where
  x : Rat
  lower_whisker : Rat
  quartile1 : Rat
  median : Rat
  quartile3 : Rat
  upper_whisker : Rat
  box_width : Rat
  whisker_width : Rat
  color : CandleColor
deriving DecidableEq

/-- Loop body of `plot_candle` (src/src/stock.rs:435-454), carrying
`previous_close`: each sample's color starts `LIGHT_GREEN` and flips to
`LIGHT_RED` when the previous close exceeds this close. -/
def candle_loop (cw ww : Rat) (prev : Option Rat) : List Point → List BoxElem
  | [] => []
  | p :: rest =>
    let color := match prev with
      | some last => if last > p.close then CandleColor.lightRed else CandleColor.lightGreen
      | none => CandleColor.lightGreen
    { x := (p.timestamp : Rat)
      lower_whisker := p.low
      quartile1 := p.price_open
      median := p.close
      quartile3 := p.close
      upper_whisker := p.high
      box_width := cw
      whisker_width := ww
      color := color } :: candle_loop cw ww (some p.close) rest

/-- Embeds `plot_candle` (src/src/stock.rs:425-470) up to the produced
box elements: early return on no samples, widths
`candle_width = (time_step * 0.6).max(1.0)` and
`whisker_width = (candle_width * 0.4).max(1.0)`, then the color loop. -/
def plot_candle (points : List Point) (time_step : Rat) : List BoxElem :=
  if points.isEmpty then []
  else
    let cw := max (time_step * (6 / 10)) 1
    let ww := max (cw * (4 / 10)) 1
    candle_loop cw ww none points

/-! ### Spec-side definitions (stated from the claims' words, for
comparison with the embedded code) -/

/-- Validation as claim C2 words it: the quantity text parses (as `u32`)
to a strictly positive value and the price text denotes a strictly
positive finite numeric value. -/
def spec_positive_inputs (qty price : String) : Bool :=
  (match parse_u32 qty with
   | some n => decide (0 < n)
   | none => false) &&
  (match floatTextValue price with
   | some v => decide (0 < v)
   | none => false)

/-- Estimated time step as claim C3 words it: the mean of the
consecutive signed timestamp deltas that are strictly positive (zero
deltas excluded), clamped below at 1; the default step for fewer than
two samples or when no positive delta exists. -/
def spec_time_step (points : List Point) : Rat :=
  if points.length < 2 then DEFAULT_STEP_MS
  else
    let pos := ((points.zip points.tail).map
      (fun w => ((w.2.timestamp - w.1.timestamp : Int) : Rat))).filter
        (fun d => decide (0 < d))
    if 0 < pos.length then max (pos.sum / (pos.length : Rat)) 1 else DEFAULT_STEP_MS

/-- Estimated time step as claim C3 amended: the mean of the strictly
positive absolute consecutive timestamp deltas (zero deltas excluded),
clamped below at 1; the default step for fewer than two samples or when
every delta is zero. -/
def spec_abs_time_step (points : List Point) : Rat :=
  if points.length < 2 then DEFAULT_STEP_MS
  else
    let nz := (window_abs_diffs points).filter (fun d => decide (0 < d))
    if 0 < nz.length then max (nz.sum / (nz.length : Rat)) 1 else DEFAULT_STEP_MS

/-- Color sequence of claim C4 for the samples after the first: each
candle compared with the previous sample's close, up (`LIGHT_GREEN`)
when the close did not drop. -/
def pairColors : Rat → List Rat → List CandleColor
  | _, [] => []
  | prev, c :: rest =>
    (if prev ≤ c then CandleColor.lightGreen else CandleColor.lightRed) :: pairColors c rest

/-! ### Concrete fixtures -/

/-- Sample at a given timestamp with zeroed prices and volume. -/
def sample_at (t : Int) : Point :=
  { timestamp := t, price_open := 0, high := 0, low := 0, close := 0, volume := 0 }

/-- Sample with a given close price at timestamp zero. -/
def sample_close (c : Rat) : Point :=
  { timestamp := 0, price_open := 0, high := 0, low := 0, close := c, volume := 0 }

/-- Session in the Editing state with parseable positive inputs. -/
def editing_session : Stock :=
  { Stock.default "AAPL" 0 with qty := "10", price := "5.50" }

/-- Session in the Editing state whose quantity text parses as `u32`
but denotes zero, which is not a positive value. -/
def zero_qty_session : Stock :=
  { Stock.default "AAPL" 0 with qty := "0", price := "5.50" }

/-- Session in the PendingConfirmation state (confirmation dialog armed)
with validated inputs. -/
def pending_session : Stock :=
  { Stock.default "AAPL" 0 with
    qty := "10"
    price := "5.50"
    show_order_confirmation := true
    pending_order_type := "BUY" }

/-- Box element produced for a single zeroed sample under the default
time step: width `max (60000 * 0.6) 1`, whisker `max (36000 * 0.4) 1`. -/
def witness_candle_elem : BoxElem :=
  { x := 0
    lower_whisker := 0
    quartile1 := 0
    median := 0
    quartile3 := 0
    upper_whisker := 0
    box_width := 36000
    whisker_width := 14400
    color := CandleColor.lightGreen }

/-! ### Helper lemmas -/

/-- Rust parses `f32` and `f64` from the same textual grammar, so the
two `is_ok` predicates agree. -/
theorem parse_f32_f64_agree (s : String) : parse_f32_ok s = parse_f64_ok s := rfl

/-- The accumulation loop of `estimate_time_step` computes the sum and
the count of the strictly positive entries. -/
theorem foldl_step_filter (ds : List Rat) (a : Rat) (n : Nat) :
    ds.foldl (fun acc d => if 0 < d then (acc.1 + d, acc.2 + 1) else acc) (a, n) =
      (a + (ds.filter (fun d => decide (0 < d))).sum,
       n + (ds.filter (fun d => decide (0 < d))).length) := by
  induction ds generalizing a n with
  | nil => simp
  | cons d rest ih =>
    by_cases h : 0 < d
    · rw [List.foldl_cons, if_pos h, ih,
        List.filter_cons_of_pos (by simpa using h), List.sum_cons, List.length_cons]
      simp only [Prod.mk.injEq]
      exact ⟨by ring, by omega⟩
    · rw [List.foldl_cons, if_neg h, ih,
        List.filter_cons_of_neg (by simpa using h)]

/-- Every element produced by the candle loop carries the body and
whisker widths the loop was given. -/
theorem candle_loop_widths (cw ww : Rat) (prev : Option Rat) (l : List Point)
    (e : BoxElem) (he : e ∈ candle_loop cw ww prev l) :
    e.box_width = cw ∧ e.whisker_width = ww := by
  induction l generalizing prev with
  | nil => cases he
  | cons p rest ih =>
    simp only [candle_loop, List.mem_cons] at he
    rcases he with h | h
    · subst h
      exact ⟨rfl, rfl⟩
    · exact ih (some p.close) h

/-- The colors produced by the candle loop, once a previous close
exists, follow the pairwise comparison of closes. -/
theorem candle_loop_colors (cw ww : Rat) (p : Rat) (l : List Point) :
    (candle_loop cw ww (some p) l).map (fun e => e.color) =
      pairColors p (l.map (fun q => q.close)) := by
  induction l generalizing p with
  | nil => rfl
  | cons q rest ih =>
    rcases le_or_lt p q.close with h | h
    · simp only [candle_loop, List.map_cons, pairColors, ih, if_pos h,
        if_neg (not_lt.mpr h)]
    · simp only [candle_loop, List.map_cons, pairColors, ih,
        if_neg (not_le.mpr h), if_pos h]

/-- The pairwise color sequence is a `zipWith` of the close list against
its tail, seeded with the previous close. -/
theorem pairColors_zipWith (p : Rat) (l : List Rat) :
    pairColors p l =
      List.zipWith
        (fun prev cur => if prev ≤ cur then CandleColor.lightGreen else CandleColor.lightRed)
        (p :: l) l := by
  induction l generalizing p with
  | nil => rfl
  | cons c rest ih => rw [pairColors, List.zipWith, ih]

/-! ### Claim theorems -/

/-- C1 (code bug): the refresh completion handler does not drop a failed
or malformed response — it panics. On a transport error
(`result.unwrap()`) and on a body that fails to deserialize as a
`TimeSeries` (`serde_json::from_slice(..).unwrap()`), the embedded
handler reaches the modelled panic (`none`) instead of leaving the
session unchanged with a logged error as the claim requires. -/
theorem refresh_failure_panics :
    refresh_on_completion (Except.error "Failed to connect to 127.0.0.1:3000")
      (Stock.default "AAPL" 0) = none ∧
    refresh_on_completion (Except.ok Payload.malformed)
      (Stock.default "AAPL" 0) = none :=
  ⟨rfl, rfl⟩

/-- C6: replacing a session's time series with any series (the empty one
included) and then taking a snapshot returns exactly the samples of that
series, in the same order. -/
theorem replace_then_snapshot (s : Stock) (ts : TimeSeries) :
    collect_time_series_points (set_time_series s ts).time_series = ts.data :=
  rfl

/-- C7: after adding a non-empty symbol to the registry, looking the
symbol up returns a session whose time series is empty and whose quote
snapshot fields (current/bid/ask price, daily change, daily change
percent, volume) are all zero. -/
theorem add_then_lookup_default (reg : Registry) (sym : String) (now : Int)
    (h : sym.isEmpty = false) :
    ∃ st, registry_get (add_to_watchlist reg sym now).1 sym = some st ∧
      st.time_series.data = [] ∧ st.current_price = 0 ∧ st.bid_price = 0 ∧
      st.ask_price = 0 ∧ st.daily_change = 0 ∧ st.daily_change_percent = 0 ∧
      st.volume = 0 := by
  refine ⟨Stock.default sym now, ?_, rfl, rfl, rfl, rfl, rfl, rfl, rfl⟩
  simp [add_to_watchlist, h, registry_insert, registry_get]

/-- Witness for C7 at the concrete symbol `AAPL` on the empty registry. -/
theorem add_then_lookup_default_witness :
    ∃ st, registry_get (add_to_watchlist ([] : Registry) "AAPL" 0).1 "AAPL" = some st ∧
      st.time_series.data = [] ∧ st.current_price = 0 ∧ st.bid_price = 0 ∧
      st.ask_price = 0 ∧ st.daily_change = 0 ∧ st.daily_change_percent = 0 ∧
      st.volume = 0 :=
  add_then_lookup_default ([] : Registry) "AAPL" 0 rfl

/-- C10: clicking Add with an empty symbol input leaves the registry
unchanged, and no add ever creates a session keyed by the empty string:
a lookup of the empty-string key is unaffected by any add. -/
theorem add_empty_symbol_noop :
    (∀ (reg : Registry) (now : Int), (add_to_watchlist reg "" now).1 = reg) ∧
    (∀ (reg : Registry) (sym : String) (now : Int),
      registry_get (add_to_watchlist reg sym now).1 "" = registry_get reg "") := by
  constructor
  · intro reg now
    rfl
  · intro reg sym now
    by_cases h : sym.isEmpty
    · simp only [add_to_watchlist, h, if_true]
    · have hne : ¬ sym = "" := by
        intro he
        subst he
        exact h rfl
      simp only [add_to_watchlist, h, Bool.false_eq_true, if_false,
        registry_insert, registry_get, if_neg hne]

/-- C3 counterexample: for the two samples at timestamps 1000 and 0
there is no strictly positive consecutive delta (the only delta is
-1000), so the claim requires the fixed default step 60000; the code
takes the absolute value of the delta and returns 1000 instead. -/
theorem time_step_positive_delta_counterexample :
    estimate_time_step [sample_at 1000, sample_at 0] = 1000 ∧
    spec_time_step [sample_at 1000, sample_at 0] = 60000 ∧
    (1000 : Rat) ≠ 60000 := by
  refine ⟨?_, ?_, by norm_num⟩
  · norm_num [estimate_time_step, window_abs_diffs, sample_at, DEFAULT_STEP_MS]
  · norm_num [spec_time_step, sample_at, DEFAULT_STEP_MS]

/-- C3 amended: the estimated time step is the mean of the strictly
positive absolute consecutive timestamp deltas (zero deltas excluded),
clamped below at 1, with the fixed default step for fewer than two
samples or when every delta is zero; and for timestamps
[0, 1000, 3000] ms the result is 1500. -/
theorem time_step_abs_mean :
    (∀ points, estimate_time_step points = spec_abs_time_step points) ∧
    estimate_time_step [sample_at 0, sample_at 1000, sample_at 3000] = 1500 := by
  constructor
  · intro points
    simp only [estimate_time_step, spec_abs_time_step, foldl_step_filter, zero_add]
  · norm_num [estimate_time_step, window_abs_diffs, sample_at, DEFAULT_STEP_MS]

/-- C2 counterexample: the quantity text `0` parses as `u32` but is not
a positive numeric value, yet a BUY click from Editing still arms the
confirmation dialog — validation checks parseability only, not
positivity, so the claim's "if and only if both texts are parseable
positive numeric values" is false as stated. -/
theorem begin_order_positive_counterexample :
    zero_qty_session.show_order_confirmation = false ∧
    spec_positive_inputs zero_qty_session.qty zero_qty_session.price = false ∧
    (begin_order zero_qty_session "BUY").show_order_confirmation = true := by
  exact ⟨rfl, by decide, by decide⟩

/-- C2 amended: from Editing, a BUY/SELL click transitions to
PendingConfirmation if and only if the quantity text parses as a `u32`
and the price text parses as an `f32` (positivity is not required: zero
and negative values are accepted); on validation failure the session is
left completely unchanged. -/
theorem begin_order_iff_parse (s : Stock) (side : String)
    (h : s.show_order_confirmation = false) :
    ((begin_order s side).show_order_confirmation = true ↔
      ((parse_u32 s.qty).isSome = true ∧ parse_f32_ok s.price = true)) ∧
    (¬ ((parse_u32 s.qty).isSome = true ∧ parse_f32_ok s.price = true) →
      begin_order s side = s) := by
  by_cases hq : (parse_u32 s.qty).isSome = true
  · by_cases hp : parse_f32_ok s.price = true
    · simp [begin_order, validate_trade_inputs, hq, hp]
    · simp [begin_order, validate_trade_inputs, hq, hp, h]
  · simp [begin_order, validate_trade_inputs, hq, h]

/-- Witness for the amended C2 at a concrete Editing session with
parseable inputs. -/
theorem begin_order_iff_parse_witness :
    ((begin_order editing_session "BUY").show_order_confirmation = true ↔
      ((parse_u32 editing_session.qty).isSome = true ∧
        parse_f32_ok editing_session.price = true)) ∧
    (¬ ((parse_u32 editing_session.qty).isSome = true ∧
        parse_f32_ok editing_session.price = true) →
      begin_order editing_session "BUY" = editing_session) :=
  begin_order_iff_parse editing_session "BUY" rfl

/-- C4: the candle colors are, positionally, the default `LIGHT_GREEN`
for the first sample and, for each later sample, `LIGHT_GREEN` (up) when
its close is greater than or equal to the previous sample's close and
`LIGHT_RED` (down) otherwise. -/
theorem candle_colors_spec (points : List Point) (step : Rat) :
    (plot_candle points step).map (fun e => e.color) =
      (match points.map (fun p => p.close) with
       | [] => []
       | c :: rest =>
         CandleColor.lightGreen ::
           List.zipWith
             (fun prev cur =>
               if prev ≤ cur then CandleColor.lightGreen else CandleColor.lightRed)
             (c :: rest) rest) := by
  cases points with
  | nil => rfl
  | cons q qs =>
    simp only [plot_candle, List.isEmpty_cons, Bool.false_eq_true, if_false, candle_loop,
      List.map_cons, candle_loop_colors, pairColors_zipWith]

/-- C5 counterexample: for the two samples at timestamps 0 and 1 ms the
estimated step is 1, and every candle's body width is 1 (the `max 1`
clamp fired) while the claim's `0.6 × step` is `3/5 ≠ 1`. -/
theorem candle_width_unclamped_counterexample :
    estimate_time_step [sample_at 0, sample_at 1] = 1 ∧
    (plot_candle [sample_at 0, sample_at 1]
      (estimate_time_step [sample_at 0, sample_at 1])).map (fun e => e.box_width) = [1, 1] ∧
    estimate_time_step [sample_at 0, sample_at 1] * (6 / 10) ≠ 1 := by
  have hest : estimate_time_step [sample_at 0, sample_at 1] = 1 := by
    norm_num [estimate_time_step, window_abs_diffs, sample_at, DEFAULT_STEP_MS]
  refine ⟨hest, ?_, ?_⟩
  · norm_num [plot_candle, candle_loop, sample_at, estimate_time_step, window_abs_diffs,
      DEFAULT_STEP_MS]
  · rw [hest]
    norm_num

/-- C5 amended: every candle produced for a sample sequence under its
estimated time step `s` has body width `max (0.6 × s) 1` and whisker
width `max (0.4 × body width) 1` — the spec's proportional widths, each
clamped below at 1. -/
theorem candle_widths_clamped (points : List Point) (e : BoxElem)
    (he : e ∈ plot_candle points (estimate_time_step points)) :
    e.box_width = max (estimate_time_step points * (6 / 10)) 1 ∧
    e.whisker_width = max (max (estimate_time_step points * (6 / 10)) 1 * (4 / 10)) 1 := by
  rcases points with _ | ⟨p, rest⟩
  · simp [plot_candle] at he
  · exact candle_loop_widths _ _ _ _ _ he

/-- Witness for the amended C5 at a singleton sample sequence. -/
theorem candle_widths_clamped_witness :
    witness_candle_elem ∈ plot_candle [sample_at 0] (estimate_time_step [sample_at 0]) ∧
    (witness_candle_elem.box_width =
      max (estimate_time_step [sample_at 0] * (6 / 10)) 1 ∧
     witness_candle_elem.whisker_width =
      max (max (estimate_time_step [sample_at 0] * (6 / 10)) 1 * (4 / 10)) 1) :=
  have hm : witness_candle_elem ∈
      plot_candle [sample_at 0] (estimate_time_step [sample_at 0]) := by
    norm_num [plot_candle, candle_loop, sample_at, estimate_time_step, witness_candle_elem,
      DEFAULT_STEP_MS]
  ⟨hm, candle_widths_clamped [sample_at 0] witness_candle_elem hm⟩

/-- C8: confirming an order from PendingConfirmation (with the inputs
that validation admitted) submits the transaction fire-and-forget and
returns the session to Editing with the quantity and price text cleared
and the confirmation flag down; the submit completion handler leaves the
session unchanged whatever the network outcome. -/
theorem confirm_order_clears_and_resets (s : Stock)
    (_hpending : s.show_order_confirmation = true)
    (hvalid : validate_trade_inputs s.qty s.price = true) :
    ∃ s2 t, confirm_order s = some (s2, t) ∧
      s2.qty = "" ∧ s2.price = "" ∧ s2.show_order_confirmation = false ∧
      ∀ outcome, trade_completion outcome s2 = s2 := by
  simp only [validate_trade_inputs, Bool.and_eq_true] at hvalid
  obtain ⟨hq, hp⟩ := hvalid
  obtain ⟨q, hq2⟩ := Option.isSome_iff_exists.mp hq
  have hp64 : parse_f64_ok s.price = true := hp
  simp only [confirm_order, execute_trade, hp64, if_true, hq2]
  exact ⟨_, _, rfl, rfl, rfl, rfl, fun outcome => by cases outcome <;> rfl⟩

/-- Witness for C8 at a concrete PendingConfirmation session. -/
theorem confirm_order_clears_and_resets_witness :
    ∃ s2 t, confirm_order pending_session = some (s2, t) ∧
      s2.qty = "" ∧ s2.price = "" ∧ s2.show_order_confirmation = false ∧
      ∀ outcome, trade_completion outcome s2 = s2 :=
  confirm_order_clears_and_resets pending_session rfl (by decide)

/-- C9: whenever `validate_trade_inputs` accepts the quantity and price
text (quantity as `u32`, price as `f32`), the submission-time parses
(quantity as `u32`, price as `f64`) also succeed — Rust parses `f32` and
`f64` from the same grammar — so `execute_trade` reaches its result
instead of panicking on an unwrapped parse. -/
theorem validated_inputs_submit_parses (s : Stock)
    (h : validate_trade_inputs s.qty s.price = true) :
    (parse_u32 s.qty).isSome = true ∧ parse_f64_ok s.price = true ∧
    (execute_trade s).isSome = true := by
  simp only [validate_trade_inputs, Bool.and_eq_true] at h
  obtain ⟨hq, hp⟩ := h
  have hp64 : parse_f64_ok s.price = true := hp
  obtain ⟨q, hq2⟩ := Option.isSome_iff_exists.mp hq
  refine ⟨hq, hp64, ?_⟩
  simp only [execute_trade, hp64, if_true, hq2]
  rfl

/-- Witness for C9 at a concrete session with validated inputs. -/
theorem validated_inputs_submit_parses_witness :
    (parse_u32 editing_session.qty).isSome = true ∧
    parse_f64_ok editing_session.price = true ∧
    (execute_trade editing_session).isSome = true :=
  validated_inputs_submit_parses editing_session (by decide)
